import Mathlib

/-!
Verification of the CommuteTimely prediction engine (`server/app.py`).

The engine is a pure function of its inputs, so we embed it shallowly:
Python floats become `ℚ` (the constants in the source are exact decimals),
Python ints used as list indices become `ℤ`, instants become `ℚ` seconds
since an arbitrary epoch, and a Python expression that can raise an
exception (list indexing out of range) returns `Option`.
-/

namespace CommuteTimely

/-- Python list subscription `l[i]`: a non-negative index reads from the
front, a negative index reads from the end (`l[i] = l[len l + i]`), and an
index out of range raises `IndexError`, modelled as `none`. -/
def pyGet {α : Type} (l : List α) (i : ℤ) : Option α :=
  if 0 ≤ i then l[i.toNat]?
  else if 0 ≤ i + l.length then l[(i + l.length).toNat]?
  else none

/-- Python `int(q)` on a float: truncation toward zero. -/
def pyInt (q : ℚ) : ℤ :=
  if 0 ≤ q then ⌊q⌋ else ⌈q⌉

/-- Round-half-to-even to the nearest integer, as Python `round` does. -/
def roundHalfEven (q : ℚ) : ℤ :=
  if q - ⌊q⌋ < 1/2 then ⌊q⌋
  else if 1/2 < q - ⌊q⌋ then ⌊q⌋ + 1
  else if Even ⌊q⌋ then ⌊q⌋ else ⌊q⌋ + 1

/-- Python `round(q, 2)`. -/
def pyRound2 (q : ℚ) : ℚ :=
  (roundHalfEven (q * 100) : ℚ) / 100

/-- Table `congestion_multipliers` from `calculate_leave_time`. -/
def congestion_multipliers : List ℚ := [1.0, 1.05, 1.15, 1.30, 1.50]

/-- Table `congestion_penalties` from `calculate_confidence`. -/
def congestion_penalties : List ℚ := [0, 0.05, 0.10, 0.15, 0.25]

/-- Table `traffic_descriptions` from `generate_explanation`. -/
def traffic_descriptions : List String :=
  ["clear roads", "light traffic", "moderate traffic", "heavy traffic", "severe traffic"]

/-- The weather multiplier computed in `calculate_leave_time` (lines
134-144): starts at 1.0, adds 0.15 or 0.08 for precipitation, and
independently adds 0.10 or 0.05 for low visibility. -/
def weatherMultiplierOf (precipitation_prob visibility : ℚ) : ℚ :=
  1.0
  + (if precipitation_prob > 60 then 0.15 else if precipitation_prob > 30 then 0.08 else 0)
  + (if visibility < 5 then 0.10 else if visibility < 10 then 0.05 else 0)

/-- The adjusted travel time computed in `calculate_leave_time` (lines
131-153): baseline plus traffic delay, times the weather multiplier, times
`congestion_multipliers[min(congestion_level, 4)]` (which may raise
`IndexError`), plus 120 seconds per incident. -/
def travelTimeOf (baseline_duration traffic_delay incident_count : ℚ)
    (congestion_level : ℤ) (precipitation_prob visibility : ℚ) : Option ℚ :=
  let travel_time := baseline_duration + traffic_delay
  let travel_time := travel_time * weatherMultiplierOf precipitation_prob visibility
  (pyGet congestion_multipliers (min congestion_level 4)).map fun m =>
    travel_time * m + incident_count * 120

/-- The buffer computed in `calculate_leave_time` (lines 155-165): 300
seconds base plus 15% of travel time, the variable part multiplied by 1.5
under heavy congestion and then by 1.3 under likely precipitation. -/
def bufferSecondsOf (travel_time : ℚ) (congestion_level : ℤ)
    (precipitation_prob : ℚ) : ℚ :=
  let base_buffer : ℚ := 300
  let variability_buffer := travel_time * 0.15
  let variability_buffer :=
    if congestion_level ≥ 3 then variability_buffer * 1.5 else variability_buffer
  let variability_buffer :=
    if precipitation_prob > 50 then variability_buffer * 1.3 else variability_buffer
  base_buffer + variability_buffer

/-- Source function `calculate_confidence` (lines 221-258). `incident_count` is kept at
type `ℚ` because Python performs the same arithmetic on any number. -/
def calculate_confidence (congestion_level : ℤ)
    (weather_score precipitation_prob incident_count time_until_arrival : ℚ) :
    Option ℚ :=
  (pyGet congestion_penalties (min congestion_level 4)).map fun p =>
    let confidence := (0.85 : ℚ) - p
    let confidence := confidence -
      (if weather_score < 50 then 0.15 else if weather_score < 70 then 0.08 else 0)
    let confidence := confidence -
      (if precipitation_prob > 70 then 0.10 else if precipitation_prob > 40 then 0.05 else 0)
    let confidence := confidence - min 0.15 (incident_count * 0.03)
    let hours_until := time_until_arrival / 3600
    let confidence := confidence -
      (if hours_until > 4 then 0.10 else if hours_until > 2 then 0.05 else 0)
    max 0.40 (min 0.98 confidence)

/-- Source function `generate_explanation` (lines 261-290). The traffic lookup only
happens when `congestion_level > 0`, in which case it cannot fail, but we
keep the `Option` of `pyGet` to stay faithful to the source. -/
def generate_explanation (travel_time : ℚ) (buffer_minutes : ℤ)
    (congestion_level : ℤ) (weather_score precipitation_prob : ℚ) :
    Option String :=
  let travel_mins := pyInt (travel_time / 60)
  let traffic : Option (List String) :=
    if congestion_level > 0 then
      (pyGet traffic_descriptions (min congestion_level 4)).map fun d => [d]
    else some []
  traffic.map fun tr =>
    let parts := [toString travel_mins ++ " min travel"] ++ tr
    let parts :=
      if precipitation_prob > 50 then parts ++ ["rain expected"]
      else if weather_score < 70 then parts ++ ["poor weather"]
      else parts
    String.intercalate ", " (parts ++ [toString buffer_minutes ++ " min buffer"])

/-- One alternative leave time in the prediction result. -/
structure Alternative where
  leave_time : ℚ
  arrival_probability : ℚ
  description : String
deriving DecidableEq

/-- The prediction dictionary assembled by `calculate_leave_time`
(lines 211-218). Instants are `ℚ` seconds since the epoch. -/
structure Prediction where
  leave_time : ℚ
  confidence : ℚ
  explanation : String
  alternative_leaves_times : List Alternative
  buffer_minutes : ℤ
  calculated_at : ℚ
deriving DecidableEq

/-- Source function `calculate_leave_time` (lines 100-218). Returns `none` exactly when a
congestion table lookup raises `IndexError`. `distance` is a parameter of
the Python function but is never used by its body. -/
def calculate_leave_time (arrival_time current_time : ℚ)
    (distance baseline_duration traffic_delay incident_count : ℚ)
    (congestion_level : ℤ)
    (weather_score precipitation_prob visibility : ℚ) : Option Prediction :=
  (travelTimeOf baseline_duration traffic_delay incident_count congestion_level
      precipitation_prob visibility).bind fun travel_time =>
  let buffer_seconds := bufferSecondsOf travel_time congestion_level precipitation_prob
  let buffer_minutes := pyInt (buffer_seconds / 60)
  let total_time_needed := travel_time + buffer_seconds
  let leave_time := arrival_time - total_time_needed
  (calculate_confidence congestion_level weather_score precipitation_prob
      incident_count (arrival_time - current_time)).bind fun confidence =>
  (generate_explanation travel_time buffer_minutes congestion_level weather_score
      precipitation_prob).map fun explanation =>
  { leave_time := leave_time
    confidence := pyRound2 confidence
    explanation := explanation
    alternative_leaves_times :=
      [ { leave_time := leave_time - 600
          arrival_probability := min 0.98 (confidence + 0.15)
          description := "Extra safe: arrive 10 minutes early" }
      , { leave_time := leave_time - 300
          arrival_probability := min 0.95 (confidence + 0.08)
          description := "Safe: arrive 5 minutes early" }
      , { leave_time := leave_time + 300
          arrival_probability := max 0.50 (confidence - 0.20)
          description := "Risky: might arrive 5 minutes late" } ]
    buffer_minutes := buffer_minutes
    calculated_at := current_time }

/-! ## Spec-side definitions

These restate the spec's description of each computation in its own words,
with the congestion index clamped to both ends as the spec prescribes.
They are compared with the source-derived definitions above. -/

/-- The spec's `clamp(congestionLevel, 0, 4)` as a list index. -/
def clampIdx (congestion_level : ℤ) : ℕ :=
  (max 0 (min congestion_level 4)).toNat

/-- Travel time as the spec words it: baseline plus delay, times the
weather multiplier, times the congestion table entry at the clamped index,
plus 120 seconds per incident. -/
def travelTime_spec (baseline_duration traffic_delay incident_count : ℚ)
    (congestion_level : ℤ) (precipitation_prob visibility : ℚ) : ℚ :=
  let t := baseline_duration + traffic_delay
  let wm := (1.0 : ℚ)
    + (if precipitation_prob > 60 then 0.15 else if precipitation_prob > 30 then 0.08 else 0)
    + (if visibility < 5 then 0.10 else if visibility < 10 then 0.05 else 0)
  let t := t * wm
  let t := t * congestion_multipliers.getD (clampIdx congestion_level) 0
  t + incident_count * 120

/-- Confidence as the spec words it: 0.85 minus the clamped congestion
penalty, the weather penalty, the precipitation penalty, the capped
incident penalty and the horizon penalty, clamped to [0.40, 0.98]. -/
def confidence_spec (congestion_level : ℤ)
    (weather_score precipitation_prob incident_count time_until_arrival : ℚ) : ℚ :=
  let c := (0.85 : ℚ) - congestion_penalties.getD (clampIdx congestion_level) 0
  let c := c - (if weather_score < 50 then 0.15 else if weather_score < 70 then 0.08 else 0)
  let c := c -
    (if precipitation_prob > 70 then 0.10 else if precipitation_prob > 40 then 0.05 else 0)
  let c := c - min 0.15 (incident_count * 0.03)
  let c := c -
    (if time_until_arrival / 3600 > 4 then 0.10
     else if time_until_arrival / 3600 > 2 then 0.05 else 0)
  max 0.40 (min 0.98 c)

/-- The explanation as the spec words it: travel clause, optional traffic
label at the clamped index, at most one weather clause, buffer clause,
joined by a comma and space. -/
def explanation_spec (travel_time : ℚ) (buffer_minutes : ℤ)
    (congestion_level : ℤ) (weather_score precipitation_prob : ℚ) : String :=
  String.intercalate ", "
    ([toString ⌊travel_time / 60⌋ ++ " min travel"]
     ++ (if congestion_level > 0 then
          [traffic_descriptions.getD (clampIdx congestion_level) ""] else [])
     ++ (if precipitation_prob > 50 then ["rain expected"]
         else if weather_score < 70 then ["poor weather"] else [])
     ++ [toString buffer_minutes ++ " min buffer"])

/-! ## Helper lemmas about the table lookups -/

lemma clampIdx_le_four (congestion_level : ℤ) : clampIdx congestion_level ≤ 4 := by
  unfold clampIdx
  rcases le_total congestion_level 4 with h | h
  · rcases le_total congestion_level 0 with h0 | h0
    · simp [min_eq_left h, max_eq_left h0]
    · omega
  · simp [min_eq_right h]

lemma cm_lookup (congestion_level : ℤ) (h : 0 ≤ congestion_level) :
    pyGet congestion_multipliers (min congestion_level 4) =
      some (congestion_multipliers.getD (clampIdx congestion_level) 0) := by
  rcases le_or_lt 4 congestion_level with h4 | h4
  · rw [min_eq_right h4, show clampIdx congestion_level = 4 by unfold clampIdx; omega]
    norm_num [pyGet, congestion_multipliers] <;> rfl
  · have h3 : congestion_level ≤ 3 := by omega
    interval_cases congestion_level <;>
      norm_num [pyGet, congestion_multipliers, clampIdx] <;> rfl

lemma cp_lookup (congestion_level : ℤ) (h : 0 ≤ congestion_level) :
    pyGet congestion_penalties (min congestion_level 4) =
      some (congestion_penalties.getD (clampIdx congestion_level) 0) := by
  rcases le_or_lt 4 congestion_level with h4 | h4
  · rw [min_eq_right h4, show clampIdx congestion_level = 4 by unfold clampIdx; omega]
    norm_num [pyGet, congestion_penalties] <;> rfl
  · have h3 : congestion_level ≤ 3 := by omega
    interval_cases congestion_level <;>
      norm_num [pyGet, congestion_penalties, clampIdx] <;> rfl

lemma td_lookup (congestion_level : ℤ) (h : 0 < congestion_level) :
    pyGet traffic_descriptions (min congestion_level 4) =
      some (traffic_descriptions.getD (clampIdx congestion_level) "") := by
  rcases le_or_lt 4 congestion_level with h4 | h4
  · rw [min_eq_right h4, show clampIdx congestion_level = 4 by unfold clampIdx; omega]
    norm_num [pyGet, traffic_descriptions] <;> rfl
  · have h1 : 1 ≤ congestion_level := h
    have h3 : congestion_level ≤ 3 := by omega
    interval_cases congestion_level <;>
      norm_num [pyGet, traffic_descriptions, clampIdx] <;> rfl

lemma one_le_cm_getD (n : ℕ) (h : n ≤ 4) :
    1 ≤ congestion_multipliers.getD n 0 := by
  interval_cases n <;> norm_num [congestion_multipliers]

lemma one_le_weatherMultiplier (precipitation_prob visibility : ℚ) :
    1 ≤ weatherMultiplierOf precipitation_prob visibility := by
  unfold weatherMultiplierOf
  split_ifs <;> norm_num

/-! ## Helper lemmas about the source functions -/

lemma travelTimeOf_eq_spec (bd td ic : ℚ) (cl : ℤ) (pp vis : ℚ) (h : 0 ≤ cl) :
    travelTimeOf bd td ic cl pp vis = some (travelTime_spec bd td ic cl pp vis) := by
  simp [travelTimeOf, travelTime_spec, cm_lookup cl h, weatherMultiplierOf]

lemma travelTime_nonneg_aux (a w m i : ℚ) (ha : 0 ≤ a) (hw : 1 ≤ w)
    (hm : 1 ≤ m) (hi : 0 ≤ i) : 0 ≤ a * w * m + i * 120 := by
  have h1 : 0 ≤ a * w := mul_nonneg ha (le_trans zero_le_one hw)
  have h2 : 0 ≤ a * w * m := mul_nonneg h1 (le_trans zero_le_one hm)
  have h3 : 0 ≤ i * 120 := mul_nonneg hi (by norm_num)
  linarith

lemma travelTime_spec_nonneg (bd td ic : ℚ) (cl : ℤ) (pp vis : ℚ)
    (hbd : 0 ≤ bd) (htd : 0 ≤ td) (hic : 0 ≤ ic) :
    0 ≤ travelTime_spec bd td ic cl pp vis := by
  have hwm : 1 ≤ (1.0 : ℚ)
      + (if pp > 60 then 0.15 else if pp > 30 then 0.08 else 0)
      + (if vis < 5 then 0.10 else if vis < 10 then 0.05 else 0) := by
    split_ifs <;> norm_num
  have hm : 1 ≤ congestion_multipliers.getD (clampIdx cl) 0 :=
    one_le_cm_getD _ (clampIdx_le_four cl)
  simp only [travelTime_spec]
  exact travelTime_nonneg_aux _ _ _ _ (by linarith) hwm hm hic

lemma calculate_confidence_eq_spec (cl : ℤ) (ws pp ic tu : ℚ) (h : 0 ≤ cl) :
    calculate_confidence cl ws pp ic tu = some (confidence_spec cl ws pp ic tu) := by
  simp [calculate_confidence, confidence_spec, cp_lookup cl h]

lemma generate_explanation_isSome (t : ℚ) (bm : ℤ) (cl : ℤ) (ws pp : ℚ) :
    (generate_explanation t bm cl ws pp).isSome := by
  by_cases h0 : cl > 0
  · simp [generate_explanation, h0, td_lookup cl h0]
  · simp [generate_explanation, h0]

lemma bufferSecondsOf_ge (t : ℚ) (cl : ℤ) (pp : ℚ) (h : 0 ≤ t) :
    300 ≤ bufferSecondsOf t cl pp := by
  unfold bufferSecondsOf
  split_ifs <;> nlinarith

/-- Shape of a successful `calculate_leave_time` run, given the values of
its three fallible stages. -/
lemma calculate_leave_time_shape (arrival_time current_time dist bd td ic : ℚ)
    (cl : ℤ) (ws pp vis t c : ℚ) (e : String)
    (h₁ : travelTimeOf bd td ic cl pp vis = some t)
    (h₂ : calculate_confidence cl ws pp ic (arrival_time - current_time) = some c)
    (h₃ : generate_explanation t (pyInt (bufferSecondsOf t cl pp / 60)) cl ws pp = some e) :
    calculate_leave_time arrival_time current_time dist bd td ic cl ws pp vis =
      some { leave_time := arrival_time - (t + bufferSecondsOf t cl pp)
             confidence := pyRound2 c
             explanation := e
             alternative_leaves_times :=
               [ ⟨arrival_time - (t + bufferSecondsOf t cl pp) - 600, min 0.98 (c + 0.15),
                  "Extra safe: arrive 10 minutes early"⟩,
                 ⟨arrival_time - (t + bufferSecondsOf t cl pp) - 300, min 0.95 (c + 0.08),
                  "Safe: arrive 5 minutes early"⟩,
                 ⟨arrival_time - (t + bufferSecondsOf t cl pp) + 300, max 0.50 (c - 0.20),
                  "Risky: might arrive 5 minutes late"⟩ ]
             buffer_minutes := pyInt (bufferSecondsOf t cl pp / 60)
             calculated_at := current_time } := by
  simp [calculate_leave_time, h₁, h₂, h₃]

/-! ## Claims -/

/-- Claim C1: for every route and weather input (with `congestionLevel` in
its declared non-negative domain), the travel time computed by
`calculate_leave_time` equals baseline plus traffic delay, times the
cumulative weather multiplier, times the congestion-table entry at the
clamped index, plus 120 seconds per incident, in that order. -/
theorem travelTime_matches_spec (bd td ic : ℚ) (cl : ℤ) (pp vis : ℚ) (h : 0 ≤ cl) :
    travelTimeOf bd td ic cl pp vis = some (travelTime_spec bd td ic cl pp vis) :=
  travelTimeOf_eq_spec bd td ic cl pp vis h

/-- Claim C1 witness: the theorem applied at Scenario A of the spec. -/
theorem travelTime_matches_spec_witness :
    travelTimeOf 1800 300 0 0 10 15 = some (travelTime_spec 1800 300 0 0 10 15) :=
  travelTime_matches_spec 1800 300 0 0 10 15 (le_refl 0)

/-- Claim C3: for every non-negative travel time, the buffer equals
`300 + travelTime * 0.15` with the variable portion multiplied by 1.5 when
`congestionLevel ≥ 3` and then by 1.3 when `precipitationProbability > 50`
(compounding), and `bufferMinutes` — computed by Python `int`, i.e.
truncation — equals `floor(bufferSeconds / 60)`. -/
theorem buffer_matches_spec (t : ℚ) (cl : ℤ) (pp : ℚ) (h : 0 ≤ t) :
    bufferSecondsOf t cl pp =
      300 + (t * 0.15) * (if cl ≥ 3 then 1.5 else 1) * (if pp > 50 then 1.3 else 1) ∧
    pyInt (bufferSecondsOf t cl pp / 60) = ⌊bufferSecondsOf t cl pp / 60⌋ := by
  have hb : (0 : ℚ) ≤ bufferSecondsOf t cl pp := by
    have := bufferSecondsOf_ge t cl pp h
    linarith
  constructor
  · unfold bufferSecondsOf
    split_ifs <;> ring
  · unfold pyInt
    rw [if_pos (div_nonneg hb (by norm_num))]

/-- Claim C3 witness: the theorem applied at Scenario A of the spec, where
the buffer is 615 seconds and 10 minutes. -/
theorem buffer_matches_spec_witness :
    bufferSecondsOf 2100 0 10 =
      300 + ((2100 : ℚ) * 0.15) * (if (0 : ℤ) ≥ 3 then 1.5 else 1) *
        (if (10 : ℚ) > 50 then 1.3 else 1) ∧
    pyInt (bufferSecondsOf 2100 0 10 / 60) = ⌊bufferSecondsOf 2100 0 10 / 60⌋ :=
  buffer_matches_spec 2100 0 10 (by norm_num)

/-- Claim C4: for every input with `congestionLevel` in its non-negative
domain — including a negative time-until-arrival, which never throws and
skips the horizon penalty — `calculate_confidence` returns exactly the
spec's penalty sum clamped to [0.40, 0.98]. -/
theorem confidence_matches_spec (cl : ℤ) (ws pp ic tu : ℚ) (h : 0 ≤ cl) :
    calculate_confidence cl ws pp ic tu = some (confidence_spec cl ws pp ic tu) ∧
    (tu < 0 → calculate_confidence cl ws pp ic tu = calculate_confidence cl ws pp ic 0) := by
  refine ⟨calculate_confidence_eq_spec cl ws pp ic tu h, fun htu => ?_⟩
  have hdiv : tu / 3600 < 0 := div_neg_of_neg_of_pos htu (by norm_num)
  have h1 : ¬ (tu / 3600 > 4) := by linarith
  have h2 : ¬ (tu / 3600 > 2) := by linarith
  simp only [calculate_confidence, if_neg h1, if_neg h2]
  norm_num

/-- Claim C4 witness: the theorem applied at a request whose arrival time
is 100 seconds in the past. -/
theorem confidence_matches_spec_witness :
    calculate_confidence 0 90 10 0 (-100) = some (confidence_spec 0 90 10 0 (-100)) ∧
    calculate_confidence 0 90 10 0 (-100) = calculate_confidence 0 90 10 0 0 :=
  ⟨(confidence_matches_spec 0 90 10 0 (-100) (le_refl 0)).1,
   (confidence_matches_spec 0 90 10 0 (-100) (le_refl 0)).2 (by norm_num)⟩

/-- Claim C2: for every valid request, the returned leave time satisfies
`leaveTime + travelTime + bufferSeconds = arrivalTime` exactly, equals
`arrivalTime - totalTimeNeeded`, and `totalTimeNeeded` is strictly
positive for non-negative inputs. -/
theorem leave_time_invariant (arrival_time current_time dist bd td ic ws pp vis : ℚ)
    (cl : ℤ) (hbd : 0 ≤ bd) (htd : 0 ≤ td) (hic : 0 ≤ ic) (hcl : 0 ≤ cl) :
    ∀ p t, calculate_leave_time arrival_time current_time dist bd td ic cl ws pp vis = some p →
      travelTimeOf bd td ic cl pp vis = some t →
      p.leave_time + t + bufferSecondsOf t cl pp = arrival_time ∧
      0 < t + bufferSecondsOf t cl pp ∧
      p.leave_time = arrival_time - (t + bufferSecondsOf t cl pp) := by
  intro p t hp ht
  have ht' := travelTimeOf_eq_spec bd td ic cl pp vis hcl
  rw [ht] at ht'
  have htv : t = travelTime_spec bd td ic cl pp vis := Option.some.inj ht'
  have hc := calculate_confidence_eq_spec cl ws pp ic (arrival_time - current_time) hcl
  obtain ⟨e, he⟩ := Option.isSome_iff_exists.mp
    (generate_explanation_isSome t (pyInt (bufferSecondsOf t cl pp / 60)) cl ws pp)
  have hshape := calculate_leave_time_shape arrival_time current_time dist bd td ic cl
    ws pp vis t _ e ht hc he
  rw [hp] at hshape
  have hpv := Option.some.inj hshape
  have h0t : 0 ≤ t := htv ▸ travelTime_spec_nonneg bd td ic cl pp vis hbd htd hic
  have hbuf := bufferSecondsOf_ge t cl pp h0t
  subst hpv
  refine ⟨by simp; ring, by linarith, by simp⟩

/-- Claim C2 witness: the theorem applied at Scenario A of the spec. -/
theorem leave_time_invariant_witness :
    ∃ p, calculate_leave_time 10000 2800 5 1800 300 0 0 90 10 15 = some p ∧
      p.leave_time + 2100 + bufferSecondsOf 2100 0 10 = 10000 := by
  have ht : travelTimeOf 1800 300 0 0 10 15 = some 2100 := by
    rw [travelTimeOf_eq_spec 1800 300 0 0 10 15 (le_refl 0)]
    norm_num [travelTime_spec, clampIdx, congestion_multipliers]
  have hc := calculate_confidence_eq_spec 0 90 10 0 (10000 - 2800) (le_refl 0)
  obtain ⟨e, he⟩ := Option.isSome_iff_exists.mp
    (generate_explanation_isSome 2100 (pyInt (bufferSecondsOf 2100 0 10 / 60)) 0 90 10)
  have hshape := calculate_leave_time_shape 10000 2800 5 1800 300 0 0 90 10 15 2100 _ e ht hc he
  exact ⟨_, hshape,
    (leave_time_invariant 10000 2800 5 1800 300 0 90 10 15 0 (by norm_num) (by norm_num)
      (le_refl 0) (le_refl 0) _ 2100 hshape ht).1⟩

/-- Claim C6: any congestion level at or above 4 hits the index-4 entry of
all three congestion-indexed tables, and the whole prediction at
congestion level `cl ≥ 4` (in particular 7) is identical to the one at 4. -/
theorem congestion_clamped_above (cl : ℤ) (h : 4 ≤ cl) :
    pyGet congestion_multipliers (min cl 4) = some 1.50 ∧
    pyGet congestion_penalties (min cl 4) = some 0.25 ∧
    pyGet traffic_descriptions (min cl 4) = some "severe traffic" ∧
    ∀ arrival_time current_time dist bd td ic ws pp vis : ℚ,
      calculate_leave_time arrival_time current_time dist bd td ic cl ws pp vis =
        calculate_leave_time arrival_time current_time dist bd td ic 4 ws pp vis := by
  have hmin : min cl 4 = 4 := min_eq_right h
  have h3 : cl ≥ 3 := by omega
  have h0 : cl > 0 := by omega
  refine ⟨?_, ?_, ?_, ?_⟩
  · rw [hmin]; norm_num [pyGet, congestion_multipliers] <;> rfl
  · rw [hmin]; norm_num [pyGet, congestion_penalties] <;> rfl
  · rw [hmin]; norm_num [pyGet, traffic_descriptions] <;> rfl
  · intro arrival_time current_time dist bd td ic ws pp vis
    simp only [calculate_leave_time, travelTimeOf, calculate_confidence,
      generate_explanation, bufferSecondsOf, hmin, min_self,
      if_pos h3, if_pos h0, if_pos (show (4:ℤ) ≥ 3 by norm_num),
      if_pos (show (4:ℤ) > 0 by norm_num)]

/-- Claim C6 witness: congestion level 7 produces the identical prediction
to congestion level 4, and hits the index-4 multiplier. -/
theorem congestion_clamped_above_witness :
    pyGet congestion_multipliers (min 7 4) = some 1.50 ∧
    calculate_leave_time 10000 0 1 1000 0 0 7 90 10 15 =
      calculate_leave_time 10000 0 1 1000 0 0 4 90 10 15 :=
  ⟨(congestion_clamped_above 7 (by norm_num)).1,
   (congestion_clamped_above 7 (by norm_num)).2.2.2 10000 0 1 1000 0 0 90 10 15⟩

/-- Claim C7: every valid request yields exactly three alternatives, in
the fixed extra-safe/safe/risky order, at leave time minus 10 minutes,
minus 5 minutes and plus 5 minutes (strictly ordered around the main
leave time), with probabilities derived from the full-precision confidence
while the result's confidence field is that value rounded to 2 decimals. -/
theorem alternatives_match_spec (arrival_time current_time dist bd td ic ws pp vis : ℚ)
    (cl : ℤ) (h : 0 ≤ cl) :
    ∃ p c, calculate_leave_time arrival_time current_time dist bd td ic cl ws pp vis = some p ∧
      calculate_confidence cl ws pp ic (arrival_time - current_time) = some c ∧
      p.confidence = pyRound2 c ∧
      p.alternative_leaves_times =
        [⟨p.leave_time - 600, min 0.98 (c + 0.15), "Extra safe: arrive 10 minutes early"⟩,
         ⟨p.leave_time - 300, min 0.95 (c + 0.08), "Safe: arrive 5 minutes early"⟩,
         ⟨p.leave_time + 300, max 0.50 (c - 0.20), "Risky: might arrive 5 minutes late"⟩] ∧
      p.leave_time - 600 < p.leave_time - 300 ∧
      p.leave_time - 300 < p.leave_time ∧
      p.leave_time < p.leave_time + 300 := by
  have ht := travelTimeOf_eq_spec bd td ic cl pp vis h
  have hc := calculate_confidence_eq_spec cl ws pp ic (arrival_time - current_time) h
  obtain ⟨e, he⟩ := Option.isSome_iff_exists.mp
    (generate_explanation_isSome (travelTime_spec bd td ic cl pp vis)
      (pyInt (bufferSecondsOf (travelTime_spec bd td ic cl pp vis) cl pp / 60)) cl ws pp)
  refine ⟨_, _,
    calculate_leave_time_shape arrival_time current_time dist bd td ic cl ws pp vis
      _ _ e ht hc he, hc, by simp, by simp, by simp <;> linarith, by simp <;> linarith,
    by simp <;> linarith⟩

/-- Claim C7 witness: the theorem applied at Scenario A of the spec. -/
theorem alternatives_match_spec_witness :
    ∃ p c, calculate_leave_time 10000 2800 5 1800 300 0 0 90 10 15 = some p ∧
      calculate_confidence 0 90 10 0 (10000 - 2800) = some c ∧
      p.confidence = pyRound2 c ∧
      p.alternative_leaves_times =
        [⟨p.leave_time - 600, min 0.98 (c + 0.15), "Extra safe: arrive 10 minutes early"⟩,
         ⟨p.leave_time - 300, min 0.95 (c + 0.08), "Safe: arrive 5 minutes early"⟩,
         ⟨p.leave_time + 300, max 0.50 (c - 0.20), "Risky: might arrive 5 minutes late"⟩] ∧
      p.leave_time - 600 < p.leave_time - 300 ∧
      p.leave_time - 300 < p.leave_time ∧
      p.leave_time < p.leave_time + 300 :=
  alternatives_match_spec 10000 2800 5 1800 300 0 90 10 15 0 (le_refl 0)

/-- Claim C8: for every non-negative travel time, `generate_explanation`
returns exactly the comma-joined clause list: travel minutes first, the
clamped traffic label only when congestion is positive, then at most one
of "rain expected" (precipitation > 50) or "poor weather" (otherwise, when
the weather score is below 70), and the buffer clause always last. -/
theorem explanation_matches_spec (t : ℚ) (bm : ℤ) (cl : ℤ) (ws pp : ℚ) (h : 0 ≤ t) :
    generate_explanation t bm cl ws pp = some (explanation_spec t bm cl ws pp) := by
  have hfloor : pyInt (t / 60) = ⌊t / 60⌋ := by
    unfold pyInt; rw [if_pos (div_nonneg h (by norm_num))]
  by_cases h0 : cl > 0
  · simp only [generate_explanation, explanation_spec, h0, if_pos h0, td_lookup cl h0,
      hfloor, Option.map_some]
    split_ifs <;> simp_all
  · simp only [generate_explanation, explanation_spec, h0, if_neg h0, hfloor,
      Option.map_some]
    split_ifs <;> simp_all

/-- Claim C8 witness: the theorem applied at travel time 5000 s, buffer 22
min, congestion 7, weather score 60, precipitation 80. -/
theorem explanation_matches_spec_witness :
    generate_explanation 5000 22 7 60 80 = some (explanation_spec 5000 22 7 60 80) :=
  explanation_matches_spec 5000 22 7 60 80 (by norm_num)

/-- Claim C9: increasing the incident count, all else fixed, never
decreases the computed travel time and never increases the computed
confidence. -/
theorem incident_monotonicity (bd td pp vis ws tu : ℚ) (cl : ℤ) (i1 i2 : ℚ)
    (h0 : 0 ≤ i1) (h12 : i1 ≤ i2) :
    (∀ t1 t2, travelTimeOf bd td i1 cl pp vis = some t1 →
        travelTimeOf bd td i2 cl pp vis = some t2 → t1 ≤ t2) ∧
    (∀ c1 c2, calculate_confidence cl ws pp i1 tu = some c1 →
        calculate_confidence cl ws pp i2 tu = some c2 → c2 ≤ c1) := by
  constructor
  · intro t1 t2 h1 h2
    simp only [travelTimeOf] at h1 h2
    rcases hm : pyGet congestion_multipliers (min cl 4) with _ | m
    · rw [hm] at h1; simp at h1
    · rw [hm] at h1 h2
      simp only [Option.map_some', Option.some.injEq] at h1 h2
      rw [← h1, ← h2]
      linarith
  · intro c1 c2 h1 h2
    simp only [calculate_confidence] at h1 h2
    rcases hm : pyGet congestion_penalties (min cl 4) with _ | p
    · rw [hm] at h1; simp at h1
    · rw [hm] at h1 h2
      simp only [Option.map_some', Option.some.injEq] at h1 h2
      rw [← h1, ← h2]
      have hmin : min (0.15 : ℚ) (i1 * 0.03) ≤ min (0.15 : ℚ) (i2 * 0.03) :=
        min_le_min (le_refl _) (by linarith)
      exact max_le_max (le_refl _) (min_le_min (le_refl _) (by linarith))

/-- Claim C9 witness: the theorem applied at one incident versus none,
where it bounds travel times 100 and 220 and confidences 0.85 and 0.82. -/
theorem incident_monotonicity_witness : (100 : ℚ) ≤ 220 ∧ (0.82 : ℚ) ≤ 0.85 := by
  have h := incident_monotonicity 100 0 10 15 90 0 0 0 1 (le_refl 0) (by norm_num)
  constructor
  · exact h.1 100 220
      (by norm_num [travelTimeOf, weatherMultiplierOf, pyGet, congestion_multipliers])
      (by norm_num [travelTimeOf, weatherMultiplierOf, pyGet, congestion_multipliers])
  · exact h.2 0.85 0.82
      (by norm_num [calculate_confidence, pyGet, congestion_penalties, min_def])
      (by norm_num [calculate_confidence, pyGet, congestion_penalties, min_def])

/-- Claim C10: the congestion lookups clamp only from above; a congestion
level in {-5, ..., -1} indexes the 5-element tables from the end (-1 hits
the index-4 entries 1.50 and 0.25, so the travel time and confidence at -1
agree with those at 4), and any congestion level at or below -6 makes
`calculate_leave_time` raise `IndexError` instead of returning a result. -/
theorem negative_congestion_behavior
    (arrival_time current_time dist bd td ic ws pp vis tu : ℚ) :
    (∀ cl : ℤ, -5 ≤ cl → cl ≤ -1 →
        pyGet congestion_multipliers (min cl 4) = congestion_multipliers[(cl + 5).toNat]? ∧
        pyGet congestion_penalties (min cl 4) = congestion_penalties[(cl + 5).toNat]?) ∧
    travelTimeOf bd td ic (-1) pp vis = travelTimeOf bd td ic 4 pp vis ∧
    calculate_confidence (-1) ws pp ic tu = calculate_confidence 4 ws pp ic tu ∧
    pyGet congestion_multipliers (min (-1 : ℤ) 4) = some 1.50 ∧
    pyGet congestion_penalties (min (-1 : ℤ) 4) = some 0.25 ∧
    (∀ cl : ℤ, cl ≤ -6 →
        calculate_leave_time arrival_time current_time dist bd td ic cl ws pp vis = none) := by
  have e1 : pyGet congestion_multipliers (min (-1 : ℤ) 4) = some 1.50 := by
    norm_num [pyGet, congestion_multipliers] <;> rfl
  have e2 : pyGet congestion_multipliers (min (4 : ℤ) 4) = some 1.50 := by
    norm_num [pyGet, congestion_multipliers] <;> rfl
  have e3 : pyGet congestion_penalties (min (-1 : ℤ) 4) = some 0.25 := by
    norm_num [pyGet, congestion_penalties] <;> rfl
  have e4 : pyGet congestion_penalties (min (4 : ℤ) 4) = some 0.25 := by
    norm_num [pyGet, congestion_penalties] <;> rfl
  have e5 : pyGet congestion_multipliers ((-1 : ℤ)) = some 1.50 := by
    norm_num [pyGet, congestion_multipliers] <;> rfl
  have e6 : pyGet congestion_multipliers ((4 : ℤ)) = some 1.50 := by
    norm_num [pyGet, congestion_multipliers] <;> rfl
  have e7 : pyGet congestion_penalties ((-1 : ℤ)) = some 0.25 := by
    norm_num [pyGet, congestion_penalties] <;> rfl
  have e8 : pyGet congestion_penalties ((4 : ℤ)) = some 0.25 := by
    norm_num [pyGet, congestion_penalties] <;> rfl
  refine ⟨?_, ?_, ?_, e1, e3, ?_⟩
  · intro cl hl hr
    interval_cases cl <;>
      exact ⟨by norm_num [pyGet, congestion_multipliers] <;> rfl,
             by norm_num [pyGet, congestion_penalties] <;> rfl⟩
  · simp [travelTimeOf, e5, e6]
  · simp [calculate_confidence, e7, e8]
  · intro cl h
    have hmin : min cl 4 = cl := min_eq_left (by omega)
    have hno : pyGet congestion_multipliers cl = none := by
      unfold pyGet
      rw [if_neg (show ¬ (0 : ℤ) ≤ cl by omega),
        show ((congestion_multipliers.length : ℤ)) = 5 by norm_num [congestion_multipliers],
        if_neg (show ¬ (0 : ℤ) ≤ cl + 5 by omega)]
    simp [calculate_leave_time, travelTimeOf, hmin, hno]

/-- Claim C10 witness: the theorem applied at congestion levels -3 (wraps
to index 2) and -6 (raises `IndexError`). -/
theorem negative_congestion_behavior_witness :
    pyGet congestion_multipliers (min (-3 : ℤ) 4) =
      congestion_multipliers[((-3 : ℤ) + 5).toNat]? ∧
    calculate_leave_time 0 0 0 0 0 0 (-6) 0 0 0 = none := by
  have h := negative_congestion_behavior 0 0 0 0 0 0 0 0 0 0
  exact ⟨(h.1 (-3) (by norm_num) (by norm_num)).1, h.2.2.2.2.2 (-6) (by norm_num)⟩

/-! ## The `/predict` handler (claim C5)

The handler receives a JSON object. We model the values that can occur in
the fields it reads: a JSON number is a Python float or int, and a string
either parses with `datetime.fromisoformat` (carrying the instant it
denotes) or raises `ValueError`. -/

/-- A JSON value in a request field. `jstr (some t)` is a string that
`fromisoformat` parses to the instant `t`; `jstr none` is any other
string. -/
inductive JVal where
  | jnum (q : ℚ)
  | jint (n : ℤ)
  | jstr (iso : Option ℚ)
deriving DecidableEq

/-- The `route_features` dictionary; every field is optional because the
handler only discovers a missing key when the subscript raises
`KeyError`. -/
structure RouteDict where
  distance : Option JVal
  baseline_duration : Option JVal
  current_traffic_delay : Option JVal
  incident_count : Option JVal
  congestion_level : Option JVal
deriving DecidableEq

/-- The `weather_features` dictionary. -/
structure WeatherDict where
  weather_score : Option JVal
  precipitation_probability : Option JVal
  visibility : Option JVal
deriving DecidableEq

/-- The JSON body of a `/predict` request. -/
structure ReqData where
  origin : Option JVal
  destination : Option JVal
  arrival_time : Option JVal
  current_time : Option JVal
  route_features : Option RouteDict
  weather_features : Option WeatherDict
deriving DecidableEq

/-- The handler's response: 200 with a prediction, 400 (the validation
rejection), or 500 from the generic `except Exception` branch. -/
inductive Resp where
  | ok (p : Prediction)
  | badRequest (msg : String)
  | serverError
deriving DecidableEq

/-- Model of `datetime.fromisoformat(v.replace(Z, +00:00))`: only a parsable
instant string succeeds. A float or int raises `AttributeError` on
`.replace`, an unparsable string raises `ValueError`; both land in the
handler's `except Exception` branch. -/
def parseInstant (v : JVal) : Option ℚ :=
  match v with
  | .jstr (some t) => some t
  | _ => none

/-- A value the engine can use in float arithmetic: Python ints and floats
work; a string raises `TypeError` inside `calculate_leave_time`. -/
def asNumber (v : JVal) : Option ℚ :=
  match v with
  | .jnum q => some q
  | .jint n => some (n : ℚ)
  | .jstr _ => none

/-- A value usable as a Python list index: only an int. A float or string
raises `TypeError` at `congestion_multipliers[min(congestion_level, 4)]`
or at `min(congestion_level, 4)`. -/
def asIndex (v : JVal) : Option ℤ :=
  match v with
  | .jint n => some n
  | _ => none

/-- The phase of the `/predict` handler after both instants have been
resolved (lines 79-92 of the source): evaluate the eight feature
subscripts in keyword-argument order (a missing key raises `KeyError`,
which the handler answers with 400), then run `calculate_leave_time`; a
`TypeError` from a non-numeric feature or an `IndexError` from the
congestion tables lands in `except Exception` (500). The `distance` value
is evaluated for presence but never read by the engine, so its (possibly
non-numeric) value cannot raise and is passed as 0. -/
def predictCore (arrival_time current_time : ℚ)
    (route : RouteDict) (weather : WeatherDict) : Resp :=
  match route.distance, route.baseline_duration, route.current_traffic_delay,
      route.incident_count, route.congestion_level, weather.weather_score,
      weather.precipitation_probability, weather.visibility with
  | none, _, _, _, _, _, _, _ => .badRequest "Invalid data format: distance"
  | some _, none, _, _, _, _, _, _ => .badRequest "Invalid data format: baseline_duration"
  | some _, some _, none, _, _, _, _, _ =>
      .badRequest "Invalid data format: current_traffic_delay"
  | some _, some _, some _, none, _, _, _, _ =>
      .badRequest "Invalid data format: incident_count"
  | some _, some _, some _, some _, none, _, _, _ =>
      .badRequest "Invalid data format: congestion_level"
  | some _, some _, some _, some _, some _, none, _, _ =>
      .badRequest "Invalid data format: weather_score"
  | some _, some _, some _, some _, some _, some _, none, _ =>
      .badRequest "Invalid data format: precipitation_probability"
  | some _, some _, some _, some _, some _, some _, some _, none =>
      .badRequest "Invalid data format: visibility"
  | some _, some bdv, some tdv, some icv, some clv, some wsv, some ppv, some visv =>
      match asNumber bdv, asNumber tdv, asNumber icv, asIndex clv,
          asNumber wsv, asNumber ppv, asNumber visv with
      | some bd, some td, some ic, some cl, some ws, some pp, some vis =>
          match calculate_leave_time arrival_time current_time 0 bd td ic cl ws pp vis with
          | some p => .ok p
          | none => .serverError
      | _, _, _, _, _, _, _ => .serverError

/-- The `/predict` handler (lines 56-97): checks the five required fields
in order (400 on the first missing one), parses `arrival_time` and the
optional `current_time` (an exception here reaches `except Exception`,
returning 500), then proceeds as `predictCore`. `now` stands for
`datetime.utcnow()`, used when `current_time` is absent. -/
def predict (now : ℚ) (data : ReqData) : Resp :=
  if data.origin.isNone then .badRequest "Missing required field: origin"
  else if data.destination.isNone then .badRequest "Missing required field: destination"
  else if data.arrival_time.isNone then .badRequest "Missing required field: arrival_time"
  else if data.route_features.isNone then .badRequest "Missing required field: route_features"
  else if data.weather_features.isNone then .badRequest "Missing required field: weather_features"
  else
    match data.arrival_time, data.route_features, data.weather_features with
    | some av, some route, some weather =>
      match parseInstant av with
      | none => .serverError
      | some arrival_time =>
        match (match data.current_time with
               | none => some now
               | some cv => parseInstant cv) with
        | none => .serverError
        | some current_time => predictCore arrival_time current_time route weather
    | _, _, _ => .serverError

/-! ## Predicates classifying a request, for the C5 characterization -/

/-- One of the five top-level required fields is absent. -/
def missingTopField (d : ReqData) : Bool :=
  d.origin.isNone || d.destination.isNone || d.arrival_time.isNone ||
  d.route_features.isNone || d.weather_features.isNone

/-- The required `arrival_time` and, when present, the optional
`current_time` are parsable instant strings. -/
def instantFieldsOk (d : ReqData) : Bool :=
  (d.arrival_time.bind parseInstant).isSome &&
  (match d.current_time with
   | none => true
   | some cv => (parseInstant cv).isSome)

/-- Some route/weather subfield read by the handler is absent. -/
def missingSubFieldRW (r : RouteDict) (w : WeatherDict) : Bool :=
  r.distance.isNone || r.baseline_duration.isNone ||
  r.current_traffic_delay.isNone || r.incident_count.isNone ||
  r.congestion_level.isNone || w.weather_score.isNone ||
  w.precipitation_probability.isNone || w.visibility.isNone

/-- Every numeric feature the engine reads is numeric, the congestion
level is an int, and it does not underflow the 5-element tables. The
unused `distance` is deliberately not constrained. -/
def featuresWellTypedRW (r : RouteDict) (w : WeatherDict) : Bool :=
  (r.baseline_duration.bind asNumber).isSome &&
  (r.current_traffic_delay.bind asNumber).isSome &&
  (r.incident_count.bind asNumber).isSome &&
  (match r.congestion_level.bind asIndex with
   | some cl => decide (-5 ≤ cl)
   | none => false) &&
  (w.weather_score.bind asNumber).isSome &&
  (w.precipitation_probability.bind asNumber).isSome &&
  (w.visibility.bind asNumber).isSome

/-- Predicate `missingSubFieldRW` lifted to a whole request. -/
def missingSubField (d : ReqData) : Bool :=
  match d.route_features, d.weather_features with
  | some r, some w => missingSubFieldRW r w
  | _, _ => false

/-- Predicate `featuresWellTypedRW` lifted to a whole request. -/
def featuresWellTyped (d : ReqData) : Bool :=
  match d.route_features, d.weather_features with
  | some r, some w => featuresWellTypedRW r w
  | _, _ => false

/-! ## Helper lemmas for the handler characterization -/

lemma pyGet_cm_isSome (i : ℤ) (h1 : -5 ≤ i) (h2 : i ≤ 4) :
    (pyGet congestion_multipliers i).isSome := by
  interval_cases i <;> rfl

lemma pyGet_cp_isSome (i : ℤ) (h1 : -5 ≤ i) (h2 : i ≤ 4) :
    (pyGet congestion_penalties i).isSome := by
  interval_cases i <;> rfl

lemma calculate_leave_time_isSome (arrival_time current_time dist bd td ic ws pp vis : ℚ)
    (cl : ℤ) (h : -5 ≤ cl) :
    (calculate_leave_time arrival_time current_time dist bd td ic cl ws pp vis).isSome := by
  have hb1 : -5 ≤ min cl 4 := le_min h (by norm_num)
  have hb2 : min cl 4 ≤ 4 := min_le_right _ _
  obtain ⟨m, hm⟩ := Option.isSome_iff_exists.mp (pyGet_cm_isSome _ hb1 hb2)
  obtain ⟨p, hp⟩ := Option.isSome_iff_exists.mp (pyGet_cp_isSome _ hb1 hb2)
  simp only [calculate_leave_time, travelTimeOf, calculate_confidence, hm, hp,
    Option.map_some', Option.some_bind, Option.isSome_map']
  exact generate_explanation_isSome _ _ _ _ _

lemma calculate_leave_time_none (arrival_time current_time dist bd td ic ws pp vis : ℚ)
    (cl : ℤ) (h : cl < -5) :
    calculate_leave_time arrival_time current_time dist bd td ic cl ws pp vis = none := by
  have hmin : min cl 4 = cl := min_eq_left (by omega)
  have hno : pyGet congestion_multipliers cl = none := by
    unfold pyGet
    rw [if_neg (show ¬ (0 : ℤ) ≤ cl by omega),
      show ((congestion_multipliers.length : ℤ)) = 5 by norm_num [congestion_multipliers],
      if_neg (show ¬ (0 : ℤ) ≤ cl + 5 by omega)]
  simp [calculate_leave_time, travelTimeOf, hmin, hno]

lemma predictCore_characterization (a c : ℚ) (r : RouteDict) (w : WeatherDict) :
    ((∃ m, predictCore a c r w = .badRequest m) ↔ missingSubFieldRW r w = true) ∧
    ((∃ p, predictCore a c r w = .ok p) ↔
      (missingSubFieldRW r w = false ∧ featuresWellTypedRW r w = true)) := by
  obtain ⟨rd, rb, rt, ri, rc⟩ := r
  obtain ⟨ws0, wp0, wv0⟩ := w
  rcases rd with _ | rdv
  · simp [predictCore, missingSubFieldRW]
  rcases rb with _ | rbv
  · simp [predictCore, missingSubFieldRW]
  rcases rt with _ | rtv
  · simp [predictCore, missingSubFieldRW]
  rcases ri with _ | riv
  · simp [predictCore, missingSubFieldRW]
  rcases rc with _ | rcv
  · simp [predictCore, missingSubFieldRW]
  rcases ws0 with _ | wsv
  · simp [predictCore, missingSubFieldRW]
  rcases wp0 with _ | wpv
  · simp [predictCore, missingSubFieldRW]
  rcases wv0 with _ | wvv
  · simp [predictCore, missingSubFieldRW]
  rcases hbd : asNumber rbv with _ | bd
  · simp [predictCore, missingSubFieldRW, featuresWellTypedRW, hbd]
  rcases htd : asNumber rtv with _ | td
  · simp [predictCore, missingSubFieldRW, featuresWellTypedRW, hbd, htd]
  rcases hic : asNumber riv with _ | ic
  · simp [predictCore, missingSubFieldRW, featuresWellTypedRW, hbd, htd, hic]
  rcases hcl0 : asIndex rcv with _ | clv
  · simp [predictCore, missingSubFieldRW, featuresWellTypedRW, hbd, htd, hic, hcl0]
  rcases hws : asNumber wsv with _ | ws1
  · simp [predictCore, missingSubFieldRW, featuresWellTypedRW, hbd, htd, hic, hcl0, hws]
  rcases hpp : asNumber wpv with _ | pp1
  · simp [predictCore, missingSubFieldRW, featuresWellTypedRW, hbd, htd, hic, hcl0, hws, hpp]
  rcases hvis : asNumber wvv with _ | vis1
  · simp [predictCore, missingSubFieldRW, featuresWellTypedRW, hbd, htd, hic, hcl0, hws,
      hpp, hvis]
  by_cases hcl : -5 ≤ clv
  · obtain ⟨p, hp⟩ := Option.isSome_iff_exists.mp
      (calculate_leave_time_isSome a c 0 bd td ic ws1 pp1 vis1 clv hcl)
    simp [predictCore, missingSubFieldRW, featuresWellTypedRW, hbd, htd, hic, hcl0, hws,
      hpp, hvis, hp, hcl]
  · have hn := calculate_leave_time_none a c 0 bd td ic ws1 pp1 vis1 clv (by omega)
    simp [predictCore, missingSubFieldRW, featuresWellTypedRW, hbd, htd, hic, hcl0, hws,
      hpp, hvis, hn, hcl]

/-- A request whose fields are all present and well typed except that its
`arrival_time` string does not parse. -/
def badInstantReq : ReqData :=
  { origin := some (.jstr none)
    destination := some (.jstr none)
    arrival_time := some (.jstr none)
    current_time := none
    route_features := some
      { distance := some (.jnum 1000)
        baseline_duration := some (.jnum 1800)
        current_traffic_delay := some (.jnum 300)
        incident_count := some (.jint 0)
        congestion_level := some (.jint 2) }
    weather_features := some
      { weather_score := some (.jnum 90)
        precipitation_probability := some (.jnum 10)
        visibility := some (.jnum 15) } }

/-- Claim C5 counterexample: a request with every required field present
but an unparsable `arrival_time` string is answered by the generic
`except Exception` 500 branch, not by a validation rejection, refuting the
claim that an unparsable instant string surfaces as a `ValidationError`. -/
theorem predict_unparsable_instant_not_validation :
    predict 0 badInstantReq = Resp.serverError := rfl

/-- Claim C5 (amended): the handler rejects with a 400 validation error
exactly when a top-level required field is missing, or when the instants
parse and a route/weather subfield is missing; and it returns a full
prediction exactly when nothing is missing, the instants parse, every
numeric feature the engine reads is numeric with an int congestion level
that does not underflow the tables (a non-numeric `distance` is never read
and is accepted). An unparsable instant or a non-numeric used feature
falls into the generic 500 branch instead of the validation rejection. -/
theorem predict_validation_characterization (now : ℚ) (d : ReqData) :
    ((∃ m, predict now d = .badRequest m) ↔
      (missingTopField d = true ∨
        (missingTopField d = false ∧ instantFieldsOk d = true ∧ missingSubField d = true))) ∧
    ((∃ p, predict now d = .ok p) ↔
      (missingTopField d = false ∧ instantFieldsOk d = true ∧
       missingSubField d = false ∧ featuresWellTyped d = true)) := by
  obtain ⟨o, ds, av, cv, rf, wf⟩ := d
  rcases o with _ | ov
  · simp [predict, missingTopField]
  rcases ds with _ | dsv
  · simp [predict, missingTopField]
  rcases av with _ | avv
  · simp [predict, missingTopField]
  rcases rf with _ | route
  · simp [predict, missingTopField]
  rcases wf with _ | weather
  · simp [predict, missingTopField]
  rcases hav : parseInstant avv with _ | at1
  · simp [predict, missingTopField, instantFieldsOk, missingSubField, featuresWellTyped, hav]
  rcases cv with _ | cvv
  · simpa [predict, missingTopField, instantFieldsOk, missingSubField,
      featuresWellTyped, hav] using predictCore_characterization at1 now route weather
  rcases hcv : parseInstant cvv with _ | ct1
  · simp [predict, missingTopField, instantFieldsOk, missingSubField, featuresWellTyped,
      hav, hcv]
  simpa [predict, missingTopField, instantFieldsOk, missingSubField, featuresWellTyped,
    hav, hcv] using predictCore_characterization at1 ct1 route weather

end CommuteTimely
